import Mathlib

/-
Verification of the dynamodb-atomic-counter core (src/atomic-counter.ts)
against its natural-language specification.

The TypeScript module is shallowly embedded: each exported function is
represented by pure Lean functions over explicit state.  JavaScript
numbers that hold counter values are modelled as `Int` (the protocol only
ever stores and parses base-10 integers), DynamoDB attribute values as a
structure with optional `S`/`N` string fields, and JavaScript object
spread / truthiness semantics are reproduced explicitly where the source
relies on them (`options.increment || DEFAULT_INCREMENT`,
`...options.dynamodb`, `!countValue.N`).
-/

namespace AtomicCounter

/-- A DynamoDB attribute value as used by the source: either a string
payload in `S` or a decimal-number string in `N` (absent fields are
`none`, mirroring `undefined`). -/
structure AttributeValue where
  S : Option String := none
  N : Option String := none
deriving DecidableEq, Repr

/-- Default name of the DynamoDB table (`DEFAULT_TABLE_NAME`). -/
def DEFAULT_TABLE_NAME : String := "AtomicCounters"

/-- Default attribute name identifying each counter (`DEFAULT_KEY_ATTRIBUTE`). -/
def DEFAULT_KEY_ATTRIBUTE : String := "id"

/-- Default name of the count attribute (`DEFAULT_COUNT_ATTRIBUTE`). -/
def DEFAULT_COUNT_ATTRIBUTE : String := "lastValue"

/-- Default increment value (`DEFAULT_INCREMENT`). -/
def DEFAULT_INCREMENT : Int := 1

/-- JavaScript `opt || deflt` for an optional string option: both an
absent option (`undefined`) and the empty string are falsy and select
the default, exactly as in `options.tableName || DEFAULT_TABLE_NAME`. -/
def orDefault (opt : Option String) (deflt : String) : String :=
  match opt with
  | some s => if s = "" then deflt else s
  | none => deflt

/-- JavaScript `options.increment || DEFAULT_INCREMENT`: an absent
option and the number 0 are falsy, so both select the default. -/
def resolveIncrement (opt : Option Int) : Int :=
  match opt with
  | some n => if n = 0 then DEFAULT_INCREMENT else n
  | none => DEFAULT_INCREMENT

/-- JavaScript `parseInt(s, 10)`: skip leading whitespace, read an
optional sign, then the longest run of decimal digits; `NaN` (here
`none`) when no digit is found, and any trailing junk is ignored. -/
def parseIntJS (s : String) : Option Int :=
  let cs := s.toList.dropWhile (fun c => c = ' ' || c = '\t' || c = '\n' || c = '\r')
  let signAndRest : Int × List Char :=
    match cs with
    | '-' :: r => (-1, r)
    | '+' :: r => (1, r)
    | r => (1, r)
  let ds := signAndRest.2.takeWhile Char.isDigit
  if ds.isEmpty then none
  else some (signAndRest.1 * Int.ofNat (ds.foldl (fun acc c => acc * 10 + (c.toNat - 48)) 0))

/-- The fields of `UpdateItemCommandInput` / `GetItemCommandInput` that
the source reads or writes; each is optional, mirroring a partial
request object.  `options.dynamodb` is a value of this same shape. -/
structure RequestParams where
  TableName : Option String := none
  Key : Option (List (String × AttributeValue)) := none
  UpdateExpression : Option String := none
  ExpressionAttributeValues : Option (List (String × AttributeValue)) := none
  ReturnValues : Option String := none
  ProjectionExpression : Option String := none
deriving DecidableEq, Repr

/-- One field of a JavaScript object spread `{ ...derived, ...override }`:
a key present in the override object replaces the derived value. -/
def mergeField {α : Type} (derived override : Option α) : Option α :=
  match override with
  | some x => some x
  | none => derived

/-- JavaScript object spread `{ ...derived, ...override }` over the
request fields: every field present in `override` wins. -/
def RequestParams.merge (derived override : RequestParams) : RequestParams :=
  { TableName := mergeField derived.TableName override.TableName
    Key := mergeField derived.Key override.Key
    UpdateExpression := mergeField derived.UpdateExpression override.UpdateExpression
    ExpressionAttributeValues :=
      mergeField derived.ExpressionAttributeValues override.ExpressionAttributeValues
    ReturnValues := mergeField derived.ReturnValues override.ReturnValues
    ProjectionExpression := mergeField derived.ProjectionExpression override.ProjectionExpression }

/-- The store client handle: either one constructed with default
construction parameters (`new DynamoDBClient({})`) or a caller-supplied
one, told apart by an opaque tag. -/
inductive DClient where
  | fromDefaults : DClient
  | custom : Nat → DClient
deriving DecidableEq, Repr

/-- `getDynamoClient(clientOverride?)`.  The module-level mutable
`dynamoClient` variable is passed and returned explicitly: the result is
the client to use together with the new value of the shared handle. -/
def getDynamoClient (clientOverride : Option DClient) (dynamoClient : Option DClient) :
    DClient × Option DClient :=
  match clientOverride with
  | some c => (c, dynamoClient)
  | none =>
    match dynamoClient with
    | some c => (c, some c)
    | none => (DClient.fromDefaults, some DClient.fromDefaults)

/-- `setClient(client)`: unconditionally replaces the shared handle. -/
def setClient (client : DClient) (_dynamoClient : Option DClient) : Option DClient :=
  some client

/-- `getClient()`: delegates to `getDynamoClient` with no override. -/
def getClient (dynamoClient : Option DClient) : DClient × Option DClient :=
  getDynamoClient none dynamoClient

/-- An error value: either an `Error` thrown by the response-validation
code (a malformed store response, carrying the message) or an opaque
error produced by the store client itself. -/
inductive ErrVal where
  | malformed : String → ErrVal
  | store : Nat → ErrVal
deriving DecidableEq, Repr

/-- Result of one round trip through the store client: the fulfilled
response data, or the client's rejection value. -/
inductive StoreResult (α : Type) where
  | ok : α → StoreResult α
  | err : ErrVal → StoreResult α
deriving DecidableEq

/-- The `UpdateItemCommand` response shape the source reads. -/
structure UpdateItemOutput where
  Attributes : Option (List (String × AttributeValue)) := none
deriving DecidableEq

/-- The `GetItemCommand` response shape the source reads. -/
structure GetItemOutput where
  Item : Option (List (String × AttributeValue)) := none
deriving DecidableEq

/-- JavaScript property lookup `obj[name]` on an attribute map. -/
def lookupAttr : List (String × AttributeValue) → String → Option AttributeValue
  | [], _ => none
  | (k, v) :: rest, name => if k = name then some v else lookupAttr rest name

/-- The per-call options object (`AtomicCounterOptions`).  The three
callbacks are modelled by presence flags; the events they would receive
are produced explicitly by the operation models below. -/
structure AtomicCounterOptions where
  tableName : Option String := none
  keyAttribute : Option String := none
  countAttribute : Option String := none
  increment : Option Int := none
  hasSuccess : Bool := false
  hasError : Bool := false
  hasComplete : Bool := false
  dynamodb : Option RequestParams := none
  client : Option DClient := none
deriving DecidableEq

/-- The `params` object built by `increment`: the five derived fields,
then `...options.dynamodb` spread last. -/
def buildIncrementParams (counterId : String) (options : AtomicCounterOptions) :
    RequestParams :=
  let keyAttribute := orDefault options.keyAttribute DEFAULT_KEY_ATTRIBUTE
  let countAttribute := orDefault options.countAttribute DEFAULT_COUNT_ATTRIBUTE
  let incrementValue := resolveIncrement options.increment
  RequestParams.merge
    { TableName := some (orDefault options.tableName DEFAULT_TABLE_NAME)
      Key := some [(keyAttribute, { S := some counterId })]
      UpdateExpression := some ("ADD " ++ countAttribute ++ " :increment")
      ExpressionAttributeValues := some [(":increment", { N := some (toString incrementValue) })]
      ReturnValues := some "UPDATED_NEW" }
    (options.dynamodb.getD {})

/-- The `params` object built by `getLastValue`: the three derived
fields, then `...options.dynamodb` spread last. -/
def buildGetParams (counterId : String) (options : AtomicCounterOptions) :
    RequestParams :=
  let keyAttribute := orDefault options.keyAttribute DEFAULT_KEY_ATTRIBUTE
  let countAttribute := orDefault options.countAttribute DEFAULT_COUNT_ATTRIBUTE
  RequestParams.merge
    { TableName := some (orDefault options.tableName DEFAULT_TABLE_NAME)
      Key := some [(keyAttribute, { S := some counterId })]
      ProjectionExpression := some countAttribute }
    (options.dynamodb.getD {})

/-- The response-validation code of `increment`'s fulfilled branch: the
body of the inner `try` up to `resolve(newCountValue)`.  The thrown
`Error`s become `ErrVal.malformed` values. -/
def incrementHandle (countAttribute : String) (data : UpdateItemOutput) :
    Except ErrVal Int :=
  match data.Attributes with
  | none => Except.error (ErrVal.malformed "No count attribute returned from DynamoDB")
  | some attrs =>
    match lookupAttr attrs countAttribute with
    | none => Except.error (ErrVal.malformed "No count attribute returned from DynamoDB")
    | some countValue =>
      match countValue.N with
      | none => Except.error (ErrVal.malformed "Count attribute is not a number")
      | some n =>
        if n = "" then Except.error (ErrVal.malformed "Count attribute is not a number")
        else
          match parseIntJS n with
          | none => Except.error (ErrVal.malformed ("Could not parse incremented value (" ++ n ++ ")"))
          | some newCountValue => Except.ok newCountValue

/-- The response-validation code of `getLastValue`'s fulfilled branch:
absence of the item or of the count attribute yields 0; a present but
non-numeric attribute throws. -/
def getLastValueHandle (countAttribute : String) (data : GetItemOutput) :
    Except ErrVal Int :=
  match data.Item with
  | none => Except.ok 0
  | some item =>
    match lookupAttr item countAttribute with
    | none => Except.ok 0
    | some countValue =>
      match countValue.N with
      | none => Except.error (ErrVal.malformed "Count attribute is not a number")
      | some n =>
        if n = "" then Except.error (ErrVal.malformed "Count attribute is not a number")
        else
          match parseIntJS n with
          | none => Except.error (ErrVal.malformed ("Could not parse count value (" ++ n ++ ")"))
          | some lastValue => Except.ok lastValue

/-- What `increment`'s inner promise settles with: the validated value on
a fulfilled store response, or the propagated rejection value. -/
def incrementOutcome (countAttribute : String) (resp : StoreResult UpdateItemOutput) :
    Except ErrVal Int :=
  match resp with
  | StoreResult.ok data => incrementHandle countAttribute data
  | StoreResult.err e => Except.error e

/-- What `getLastValue`'s inner promise settles with. -/
def getLastValueOutcome (countAttribute : String) (resp : StoreResult GetItemOutput) :
    Except ErrVal Int :=
  match resp with
  | StoreResult.ok data => getLastValueHandle countAttribute data
  | StoreResult.err e => Except.error e

/-- An invocation of one of the caller-supplied callbacks. -/
inductive Event where
  | success : Int → Event
  | error : ErrVal → Event
  | complete : Sum Int ErrVal → Event
deriving DecidableEq

/-- `executeCallback`: invokes the callback only when one was supplied. -/
def executeCallback (present : Bool) (ev : Event) : List Event :=
  if present then [ev] else []

/-- The callbacks fired by `increment`, following the source's three
paths: validated success fires `success` then `complete`; a validation
error fires `error` then `complete`; a store rejection fires `error`
then `complete`. -/
def incrementEvents (options : AtomicCounterOptions) (resp : StoreResult UpdateItemOutput) :
    List Event :=
  let countAttribute := orDefault options.countAttribute DEFAULT_COUNT_ATTRIBUTE
  match resp with
  | StoreResult.ok data =>
    match incrementHandle countAttribute data with
    | Except.ok v =>
      executeCallback options.hasSuccess (Event.success v) ++
        executeCallback options.hasComplete (Event.complete (Sum.inl v))
    | Except.error e =>
      executeCallback options.hasError (Event.error e) ++
        executeCallback options.hasComplete (Event.complete (Sum.inr e))
  | StoreResult.err e =>
    executeCallback options.hasError (Event.error e) ++
      executeCallback options.hasComplete (Event.complete (Sum.inr e))

/-- The callbacks fired by `getLastValue`, with the same three paths. -/
def getLastValueEvents (options : AtomicCounterOptions) (resp : StoreResult GetItemOutput) :
    List Event :=
  let countAttribute := orDefault options.countAttribute DEFAULT_COUNT_ATTRIBUTE
  match resp with
  | StoreResult.ok data =>
    match getLastValueHandle countAttribute data with
    | Except.ok v =>
      executeCallback options.hasSuccess (Event.success v) ++
        executeCallback options.hasComplete (Event.complete (Sum.inl v))
    | Except.error e =>
      executeCallback options.hasError (Event.error e) ++
        executeCallback options.hasComplete (Event.complete (Sum.inr e))
  | StoreResult.err e =>
    executeCallback options.hasError (Event.error e) ++
      executeCallback options.hasComplete (Event.complete (Sum.inr e))

/-- A command submitted to the store client: `increment` constructs an
`UpdateItemCommand`, `getLastValue` a `GetItemCommand`. -/
inductive Command where
  | updateItem : RequestParams → Command
  | getItem : RequestParams → Command
deriving DecidableEq

/-- Modelled from the spec: per §6 the store exposes `AtomicAdd`
(realised by `UpdateItemCommand`, which atomically mutates the addressed
item) and `GetItem` (a point read which only "returns the requested
attribute" and changes no store state).  Whether a command mutates the
store is therefore determined by its kind alone. -/
def Command.mutatesStore : Command → Bool
  | Command.updateItem _ => true
  | Command.getItem _ => false

/-- The single command `increment` submits for a given call. -/
def incrementCommand (counterId : String) (options : AtomicCounterOptions) : Command :=
  Command.updateItem (buildIncrementParams counterId options)

/-- The single command `getLastValue` submits for a given call. -/
def getLastValueCommand (counterId : String) (options : AtomicCounterOptions) : Command :=
  Command.getItem (buildGetParams counterId options)

/-- The complete observable result of one `increment` call, given the
store's response: the submitted request, the callback invocations, and
the value the inner promise settles with. -/
def incrementRun (counterId : String) (options : AtomicCounterOptions)
    (resp : StoreResult UpdateItemOutput) :
    RequestParams × List Event × Except ErrVal Int :=
  (buildIncrementParams counterId options, incrementEvents options resp,
    incrementOutcome (orDefault options.countAttribute DEFAULT_COUNT_ATTRIBUTE) resp)

/-- The complete observable result of one `getLastValue` call. -/
def getLastValueRun (counterId : String) (options : AtomicCounterOptions)
    (resp : StoreResult GetItemOutput) :
    RequestParams × List Event × Except ErrVal Int :=
  (buildGetParams counterId options, getLastValueEvents options resp,
    getLastValueOutcome (orDefault options.countAttribute DEFAULT_COUNT_ATTRIBUTE) resp)

/-- Spec-side reading of "the response carries a numeric count
attribute": the attribute map exists, holds the attribute, and its `N`
field parses as a number.  Used to compare the source's validation
against the specification's wording. -/
def numericAttrValue (attrs : Option (List (String × AttributeValue))) (countAttribute : String) :
    Option Int :=
  match attrs with
  | none => none
  | some l =>
    match lookupAttr l countAttribute with
    | none => none
    | some av =>
      match av.N with
      | none => none
      | some n => parseIntJS n

/-- The value held in `AtomicCounterPromiseImpl.value`: `undefined`
before settlement, the resolved number or the rejection error after. -/
inductive PValue where
  | undef : PValue
  | num : Int → PValue
  | err : ErrVal → PValue
deriving DecidableEq

/-- The instance state of `AtomicCounterPromiseImpl`: the three callback
queues (callbacks named by opaque identifiers), the two settlement
flags, and the stored value. -/
structure PState where
  doneCallbacks : List Nat
  failCallbacks : List Nat
  alwaysCallbacks : List Nat
  resolved : Bool
  rejected : Bool
  value : PValue
deriving DecidableEq

/-- The freshly constructed promise object: empty queues, both flags
false, value still `undefined`. -/
def PState.init : PState :=
  { doneCallbacks := [], failCallbacks := [], alwaysCallbacks := []
    resolved := false, rejected := false, value := PValue.undef }

/-- One observable callback invocation by the promise object. -/
inductive PEvent where
  | fired : Nat → PValue → PEvent
deriving DecidableEq

/-- The operations on an `AtomicCounterPromiseImpl`: the three
registration methods, and the two settlement handlers installed on the
wrapped native promise in the constructor. -/
inductive PAction where
  | done : Nat → PAction
  | fail : Nat → PAction
  | always : Nat → PAction
  | resolveP : Int → PAction
  | rejectP : ErrVal → PAction
deriving DecidableEq

/-- Whether an action is a registration (`done`/`fail`/`always`) rather
than a settlement of the wrapped promise. -/
def PAction.isReg : PAction → Bool
  | PAction.done _ => true
  | PAction.fail _ => true
  | PAction.always _ => true
  | PAction.resolveP _ => false
  | PAction.rejectP _ => false

/-- One step of `AtomicCounterPromiseImpl`, returning the next state and
the callback invocations the step performs, in order.  Each branch
mirrors the corresponding method body of the source class. -/
def pstep (s : PState) (a : PAction) : PState × List PEvent :=
  match a with
  | PAction.done cb =>
    if s.resolved then (s, [PEvent.fired cb s.value])
    else if s.rejected then (s, [])
    else ({ s with doneCallbacks := s.doneCallbacks ++ [cb] }, [])
  | PAction.fail cb =>
    if s.rejected then (s, [PEvent.fired cb s.value])
    else if s.resolved then (s, [])
    else ({ s with failCallbacks := s.failCallbacks ++ [cb] }, [])
  | PAction.always cb =>
    if s.resolved || s.rejected then (s, [PEvent.fired cb s.value])
    else ({ s with alwaysCallbacks := s.alwaysCallbacks ++ [cb] }, [])
  | PAction.resolveP v =>
    ({ s with resolved := true, value := PValue.num v },
      s.doneCallbacks.map (fun cb => PEvent.fired cb (PValue.num v)) ++
        s.alwaysCallbacks.map (fun cb => PEvent.fired cb (PValue.num v)))
  | PAction.rejectP e =>
    ({ s with rejected := true, value := PValue.err e },
      s.failCallbacks.map (fun cb => PEvent.fired cb (PValue.err e)) ++
        s.alwaysCallbacks.map (fun cb => PEvent.fired cb (PValue.err e)))

/-- Run a sequence of operations, concatenating the emitted events. -/
def prun : PState → List PAction → PState × List PEvent
  | s, [] => (s, [])
  | s, a :: rest =>
    ((prun (pstep s a).1 rest).1, (pstep s a).2 ++ (prun (pstep s a).1 rest).2)

/-- The callback registered by a `done` action, if any. -/
def regDone : PAction → Option Nat
  | PAction.done cb => some cb
  | _ => none

/-- The callback registered by a `fail` action, if any. -/
def regFail : PAction → Option Nat
  | PAction.fail cb => some cb
  | _ => none

/-- The callback registered by an `always` action, if any. -/
def regAlways : PAction → Option Nat
  | PAction.always cb => some cb
  | _ => none

/-- The event a registration performed on an already-resolved promise
emits immediately: `done` and `always` fire with the stored value,
`fail` is a no-op. -/
def fireResolved (v : PValue) : PAction → Option PEvent
  | PAction.done cb => some (PEvent.fired cb v)
  | PAction.always cb => some (PEvent.fired cb v)
  | _ => none

/-- The event a registration performed on an already-rejected promise
emits immediately: `fail` and `always` fire with the stored error,
`done` is a no-op. -/
def fireRejected (v : PValue) : PAction → Option PEvent
  | PAction.fail cb => some (PEvent.fired cb v)
  | PAction.always cb => some (PEvent.fired cb v)
  | _ => none

example : orDefault none "AtomicCounters" = "AtomicCounters" := by decide
example : orDefault (some "") "id" = "id" := by decide
example : parseIntJS "42" = some 42 := by decide
example : parseIntJS "-7" = some (-7) := by decide
example : parseIntJS "" = none := by decide
example : parseIntJS "12abc" = some 12 := by decide
example : parseIntJS "abc" = none := by decide
example : resolveIncrement (some 0) = 1 := by decide

/-- C8: client resolution — a per-call override is returned unchanged
without touching the shared handle; with no override and no shared
handle, a default-constructed client is created, stored and returned;
with no override and an existing shared handle, that handle is returned;
`setClient` unconditionally replaces the shared handle, effective for
subsequent override-free calls; `getClient` delegates to the no-override
resolution (creating the default handle if absent). -/
theorem client_resolution_policy (c c2 : DClient) (shared : Option DClient) :
    getDynamoClient (some c) shared = (c, shared) ∧
    getDynamoClient none none = (DClient.fromDefaults, some DClient.fromDefaults) ∧
    getDynamoClient none (some c2) = (c2, some c2) ∧
    setClient c shared = some c ∧
    getDynamoClient none (setClient c shared) = (c, some c) ∧
    getClient shared = getDynamoClient none shared :=
  ⟨rfl, rfl, rfl, rfl, rfl, rfl⟩

/-- C3 counterexample: an explicitly supplied increment amount of 0 is
falsy in `options.increment || DEFAULT_INCREMENT`, so the constructed
request adds the default amount 1, not the supplied amount 0. -/
theorem increment_zero_amount_uses_default :
    (buildIncrementParams "counter" { increment := some 0 }).ExpressionAttributeValues
      = some [(":increment", { N := some "1" })] ∧
    (buildIncrementParams "counter" { increment := some 0 }).ExpressionAttributeValues
      ≠ some [(":increment", { N := some "0" })] := by
  constructor
  · decide
  · decide

/-- C3 (amended): for every provided nonzero increment amount the
constructed request adds exactly that amount to the count attribute;
when the amount is absent — or is 0, which is falsy and therefore
indistinguishable from an absent amount — the request adds the default
amount 1. -/
theorem increment_amount_in_request (counterId : String) (options : AtomicCounterOptions)
    (n : Int)
    (hd : (options.dynamodb.getD {}).ExpressionAttributeValues = none)
    (hu : (options.dynamodb.getD {}).UpdateExpression = none) :
    (options.increment = some n → n ≠ 0 →
      (buildIncrementParams counterId options).ExpressionAttributeValues
        = some [(":increment", { N := some (toString n) })]) ∧
    ((options.increment = none ∨ options.increment = some 0) →
      (buildIncrementParams counterId options).ExpressionAttributeValues
        = some [(":increment", { N := some "1" })]) ∧
    (buildIncrementParams counterId options).UpdateExpression
      = some ("ADD " ++ orDefault options.countAttribute DEFAULT_COUNT_ATTRIBUTE
          ++ " :increment") := by
  refine ⟨?_, ?_, ?_⟩
  · intro hi hn
    simp [buildIncrementParams, RequestParams.merge, mergeField, hd, resolveIncrement, hi, hn]
  · intro hi
    rcases hi with hi | hi <;>
      simp [buildIncrementParams, RequestParams.merge, mergeField, hd, resolveIncrement, hi,
        DEFAULT_INCREMENT] <;>
      decide
  · simp [buildIncrementParams, RequestParams.merge, mergeField, hu]

/-- Witness for the amended C3 at a concrete nonzero amount. -/
theorem increment_amount_in_request_witness :
    (buildIncrementParams "c" { increment := some 5 }).ExpressionAttributeValues
      = some [(":increment", { N := some (toString (5 : Int)) })] :=
  (increment_amount_in_request "c" { increment := some 5 } 5 rfl rfl).1 rfl (by decide)

/-- C5: the caller-supplied `options.dynamodb` fields are spread into
the constructed request last, so on any key collision the caller value
replaces the derived field — including the derived table name, key,
update/projection expression, and expression attribute values. -/
theorem dynamodb_fields_take_precedence (counterId : String) (options : AtomicCounterOptions)
    (d : RequestParams) (h : options.dynamodb = some d) :
    (∀ t, d.TableName = some t →
      (buildIncrementParams counterId options).TableName = some t ∧
      (buildGetParams counterId options).TableName = some t) ∧
    (∀ k, d.Key = some k →
      (buildIncrementParams counterId options).Key = some k ∧
      (buildGetParams counterId options).Key = some k) ∧
    (∀ u, d.UpdateExpression = some u →
      (buildIncrementParams counterId options).UpdateExpression = some u) ∧
    (∀ eav, d.ExpressionAttributeValues = some eav →
      (buildIncrementParams counterId options).ExpressionAttributeValues = some eav) ∧
    (∀ r, d.ReturnValues = some r →
      (buildIncrementParams counterId options).ReturnValues = some r) ∧
    (∀ p, d.ProjectionExpression = some p →
      (buildGetParams counterId options).ProjectionExpression = some p) := by
  refine ⟨?_, ?_, ?_, ?_, ?_, ?_⟩ <;>
    intro x hx <;>
    simp [buildIncrementParams, buildGetParams, RequestParams.merge, mergeField, h, hx]

/-- Witness for C5: a caller-supplied table name replaces the derived one. -/
theorem dynamodb_fields_take_precedence_witness :
    (buildIncrementParams "c" { dynamodb := some { TableName := some "T" } }).TableName
      = some "T" ∧
    (buildGetParams "c" { dynamodb := some { TableName := some "T" } }).TableName
      = some "T" :=
  (dynamodb_fields_take_precedence "c" { dynamodb := some { TableName := some "T" } }
    { TableName := some "T" } rfl).1 "T" rfl

/-- C9: `getLastValue` submits a `GetItemCommand` — a point read, which
per the store contract (§6) mutates no store state — and, unless the
caller's raw request fields override it, the request projects exactly
the count attribute. -/
theorem getLastValue_is_point_read (counterId : String) (options : AtomicCounterOptions) :
    getLastValueCommand counterId options = Command.getItem (buildGetParams counterId options) ∧
    Command.mutatesStore (getLastValueCommand counterId options) = false ∧
    ((options.dynamodb.getD {}).ProjectionExpression = none →
      (buildGetParams counterId options).ProjectionExpression
        = some (orDefault options.countAttribute DEFAULT_COUNT_ATTRIBUTE)) := by
  refine ⟨rfl, rfl, ?_⟩
  intro h
  simp [buildGetParams, RequestParams.merge, mergeField, h]

/-- Witness for C9 with default options. -/
theorem getLastValue_is_point_read_witness :
    Command.mutatesStore (getLastValueCommand "c" {}) = false ∧
    (buildGetParams "c" {}).ProjectionExpression
      = some (orDefault (({} : AtomicCounterOptions).countAttribute) DEFAULT_COUNT_ATTRIBUTE) :=
  ⟨(getLastValue_is_point_read "c" {}).2.1, (getLastValue_is_point_read "c" {}).2.2 rfl⟩

/-- C10: neither operation validates `counterId` — the derived key holds
the exact caller string (the empty string included), and the callback
events and settlement outcome of a call are independent of `counterId`,
so no client-side error can arise from it. -/
theorem counterId_never_validated (cid cid2 : String) (options : AtomicCounterOptions)
    (respU : StoreResult UpdateItemOutput) (respG : StoreResult GetItemOutput)
    (h : (options.dynamodb.getD {}).Key = none) :
    (buildIncrementParams cid options).Key
      = some [(orDefault options.keyAttribute DEFAULT_KEY_ATTRIBUTE, { S := some cid })] ∧
    (buildGetParams cid options).Key
      = some [(orDefault options.keyAttribute DEFAULT_KEY_ATTRIBUTE, { S := some cid })] ∧
    (incrementRun cid options respU).2 = (incrementRun cid2 options respU).2 ∧
    (getLastValueRun cid options respG).2 = (getLastValueRun cid2 options respG).2 := by
  refine ⟨?_, ?_, rfl, rfl⟩ <;>
    simp [buildIncrementParams, buildGetParams, RequestParams.merge, mergeField, h]

/-- Witness for C10 at the empty counter identifier. -/
theorem counterId_never_validated_witness :
    (buildIncrementParams "" {}).Key
      = some [(orDefault (({} : AtomicCounterOptions).keyAttribute) DEFAULT_KEY_ATTRIBUTE,
          { S := some "" })] :=
  (counterId_never_validated "" "x" {} (StoreResult.err (ErrVal.store 0))
    (StoreResult.err (ErrVal.store 0)) rfl).1

/-- C1: on a fulfilled store response, `increment` resolves with the
parsed numeric post-update value of the count attribute when that
attribute is present and numeric, and otherwise fails with a malformed-
response error (never a success and never a store error). -/
theorem increment_response_validation (ca : String) (data : UpdateItemOutput) :
    (∀ v : Int, numericAttrValue data.Attributes ca = some v →
      incrementOutcome ca (StoreResult.ok data) = Except.ok v) ∧
    (numericAttrValue data.Attributes ca = none →
      ∃ m, incrementOutcome ca (StoreResult.ok data) = Except.error (ErrVal.malformed m)) := by
  rcases data with ⟨attrs⟩
  constructor
  · intro v hv
    cases attrs with
    | none => simp [numericAttrValue] at hv
    | some l =>
      cases hl : lookupAttr l ca with
      | none => simp [numericAttrValue, hl] at hv
      | some av =>
        cases hN : av.N with
        | none => simp [numericAttrValue, hl, hN] at hv
        | some n =>
          have hv2 : parseIntJS n = some v := by
            simpa [numericAttrValue, hl, hN] using hv
          have hne : n ≠ "" := by
            intro h0
            subst h0
            rw [show parseIntJS "" = none from rfl] at hv2
            cases hv2
          simp [incrementOutcome, incrementHandle, hl, hN, hne, hv2]
  · intro h0
    cases attrs with
    | none => exact ⟨"No count attribute returned from DynamoDB", rfl⟩
    | some l =>
      cases hl : lookupAttr l ca with
      | none =>
        exact ⟨"No count attribute returned from DynamoDB",
          by simp [incrementOutcome, incrementHandle, hl]⟩
      | some av =>
        cases hN : av.N with
        | none =>
          exact ⟨"Count attribute is not a number",
            by simp [incrementOutcome, incrementHandle, hl, hN]⟩
        | some n =>
          have hp : parseIntJS n = none := by
            simpa [numericAttrValue, hl, hN] using h0
          by_cases hne : n = ""
          · subst hne
            exact ⟨"Count attribute is not a number",
              by simp [incrementOutcome, incrementHandle, hl, hN]⟩
          · exact ⟨"Could not parse incremented value (" ++ n ++ ")",
              by simp [incrementOutcome, incrementHandle, hl, hN, hne, hp]⟩

/-- Witness for C1: a present numeric attribute resolves with its value. -/
theorem increment_response_validation_witness :
    incrementOutcome "lastValue"
        (StoreResult.ok { Attributes := some [("lastValue", { N := some "5" })] })
      = Except.ok 5 :=
  (increment_response_validation "lastValue"
    { Attributes := some [("lastValue", { N := some "5" })] }).1 5 (by decide)

/-- C2: on a fulfilled store response, `getLastValue` resolves with the
literal value 0 when the item or its count attribute is absent; it
resolves with the parsed value when the attribute is present and
numeric; and it fails with a malformed-response error — never the
substitute 0 — when the attribute is present but not numeric. -/
theorem getLastValue_zero_default_and_validation (ca : String) (data : GetItemOutput) :
    (data.Item.bind (fun l => lookupAttr l ca) = none →
      getLastValueOutcome ca (StoreResult.ok data) = Except.ok 0) ∧
    (∀ av (v : Int), data.Item.bind (fun l => lookupAttr l ca) = some av →
      av.N.bind parseIntJS = some v →
      getLastValueOutcome ca (StoreResult.ok data) = Except.ok v) ∧
    (∀ av, data.Item.bind (fun l => lookupAttr l ca) = some av →
      av.N.bind parseIntJS = none →
      ∃ m, getLastValueOutcome ca (StoreResult.ok data) = Except.error (ErrVal.malformed m)) := by
  rcases data with ⟨item⟩
  refine ⟨?_, ?_, ?_⟩
  · intro h0
    cases item with
    | none => rfl
    | some l =>
      cases hl : lookupAttr l ca with
      | none => simp [getLastValueOutcome, getLastValueHandle, hl]
      | some av => simp [hl] at h0
  · intro av v hav hv
    cases item with
    | none => simp at hav
    | some l =>
      have hl : lookupAttr l ca = some av := by simpa using hav
      cases hN : av.N with
      | none => rw [hN] at hv; cases hv
      | some n =>
        have hv2 : parseIntJS n = some v := by
          rw [hN] at hv
          simpa using hv
        have hne : n ≠ "" := by
          intro h0
          subst h0
          rw [show parseIntJS "" = none from rfl] at hv2
          cases hv2
        simp [getLastValueOutcome, getLastValueHandle, hl, hN, hne, hv2]
  · intro av hav hp0
    cases item with
    | none => simp at hav
    | some l =>
      have hl : lookupAttr l ca = some av := by simpa using hav
      cases hN : av.N with
      | none =>
        exact ⟨"Count attribute is not a number",
          by simp [getLastValueOutcome, getLastValueHandle, hl, hN]⟩
      | some n =>
        have hp : parseIntJS n = none := by
          rw [hN] at hp0
          simpa using hp0
        by_cases hne : n = ""
        · subst hne
          exact ⟨"Count attribute is not a number",
            by simp [getLastValueOutcome, getLastValueHandle, hl, hN]⟩
        · exact ⟨"Could not parse count value (" ++ n ++ ")",
            by simp [getLastValueOutcome, getLastValueHandle, hl, hN, hne, hp]⟩

/-- Witness for C2: a missing item resolves with the default 0, and a
present non-numeric attribute fails rather than defaulting. -/
theorem getLastValue_zero_default_and_validation_witness :
    getLastValueOutcome "lastValue" (StoreResult.ok { Item := none }) = Except.ok 0 :=
  (getLastValue_zero_default_and_validation "lastValue" { Item := none }).1 rfl

/-- C4: when all three callbacks are supplied, each call fires exactly
one of `success`/`error` — `success` exactly on a valid outcome — and
fires `complete` exactly once, with the value on success and the error
on failure. -/
theorem callbacks_fire_exactly_once (options : AtomicCounterOptions)
    (respU : StoreResult UpdateItemOutput) (respG : StoreResult GetItemOutput)
    (hs : options.hasSuccess = true) (he : options.hasError = true)
    (hc : options.hasComplete = true) :
    (match incrementOutcome (orDefault options.countAttribute DEFAULT_COUNT_ATTRIBUTE) respU with
      | Except.ok v =>
        incrementEvents options respU = [Event.success v, Event.complete (Sum.inl v)]
      | Except.error e =>
        incrementEvents options respU = [Event.error e, Event.complete (Sum.inr e)]) ∧
    (match getLastValueOutcome (orDefault options.countAttribute DEFAULT_COUNT_ATTRIBUTE) respG with
      | Except.ok v =>
        getLastValueEvents options respG = [Event.success v, Event.complete (Sum.inl v)]
      | Except.error e =>
        getLastValueEvents options respG = [Event.error e, Event.complete (Sum.inr e)]) := by
  constructor
  · cases respU with
    | ok data =>
      cases hh : incrementHandle (orDefault options.countAttribute DEFAULT_COUNT_ATTRIBUTE) data with
      | ok v => simp [incrementOutcome, incrementEvents, executeCallback, hs, hc, hh]
      | error e => simp [incrementOutcome, incrementEvents, executeCallback, he, hc, hh]
    | err e => simp [incrementOutcome, incrementEvents, executeCallback, he, hc]
  · cases respG with
    | ok data =>
      cases hh : getLastValueHandle (orDefault options.countAttribute DEFAULT_COUNT_ATTRIBUTE) data with
      | ok v => simp [getLastValueOutcome, getLastValueEvents, executeCallback, hs, hc, hh]
      | error e => simp [getLastValueOutcome, getLastValueEvents, executeCallback, he, hc, hh]
    | err e => simp [getLastValueOutcome, getLastValueEvents, executeCallback, he, hc]

/-- Witness for C4: a store rejection fires the error callback and then
the complete callback, once each. -/
theorem callbacks_fire_exactly_once_witness :
    incrementEvents { hasSuccess := true, hasError := true, hasComplete := true }
        (StoreResult.err (ErrVal.store 3))
      = [Event.error (ErrVal.store 3), Event.complete (Sum.inr (ErrVal.store 3))] :=
  (callbacks_fire_exactly_once { hasSuccess := true, hasError := true, hasComplete := true }
    (StoreResult.err (ErrVal.store 3)) (StoreResult.ok { Item := none }) rfl rfl rfl).1

/-- Running only registrations from a pending state fires nothing; it
appends the registered callbacks to their queues in order and leaves
the settlement flags and stored value untouched. -/
theorem prun_pending : ∀ (regs : List PAction) (s : PState),
    (∀ a ∈ regs, a.isReg = true) → s.resolved = false → s.rejected = false →
    (prun s regs).2 = [] ∧
    (prun s regs).1.doneCallbacks = s.doneCallbacks ++ regs.filterMap regDone ∧
    (prun s regs).1.failCallbacks = s.failCallbacks ++ regs.filterMap regFail ∧
    (prun s regs).1.alwaysCallbacks = s.alwaysCallbacks ++ regs.filterMap regAlways ∧
    (prun s regs).1.resolved = false ∧
    (prun s regs).1.rejected = false ∧
    (prun s regs).1.value = s.value := by
  intro regs
  induction regs with
  | nil => intro s h hr hj; simp [prun, hr, hj]
  | cons a rest ih =>
    intro s h hr hj
    have ha : a.isReg = true := h a (List.mem_cons_self a rest)
    have hrest : ∀ b ∈ rest, b.isReg = true := fun b hb => h b (List.mem_cons_of_mem a hb)
    cases a with
    | done cb =>
      have hstep : pstep s (PAction.done cb)
          = ({ s with doneCallbacks := s.doneCallbacks ++ [cb] }, []) := by
        simp [pstep, hr, hj]
      have ih2 := ih { s with doneCallbacks := s.doneCallbacks ++ [cb] } hrest hr hj
      simp only [prun, hstep]
      simp only [List.filterMap_cons, regDone, regFail, regAlways]
      refine ⟨by simp [ih2.1], ?_, ?_, ?_, ih2.2.2.2.2.1, ih2.2.2.2.2.2.1, ih2.2.2.2.2.2.2⟩
      · rw [ih2.2.1]; simp
      · rw [ih2.2.2.1]
      · rw [ih2.2.2.2.1]
    | fail cb =>
      have hstep : pstep s (PAction.fail cb)
          = ({ s with failCallbacks := s.failCallbacks ++ [cb] }, []) := by
        simp [pstep, hr, hj]
      have ih2 := ih { s with failCallbacks := s.failCallbacks ++ [cb] } hrest hr hj
      simp only [prun, hstep]
      simp only [List.filterMap_cons, regDone, regFail, regAlways]
      refine ⟨by simp [ih2.1], ?_, ?_, ?_, ih2.2.2.2.2.1, ih2.2.2.2.2.2.1, ih2.2.2.2.2.2.2⟩
      · rw [ih2.2.1]
      · rw [ih2.2.2.1]; simp
      · rw [ih2.2.2.2.1]
    | always cb =>
      have hstep : pstep s (PAction.always cb)
          = ({ s with alwaysCallbacks := s.alwaysCallbacks ++ [cb] }, []) := by
        simp [pstep, hr, hj]
      have ih2 := ih { s with alwaysCallbacks := s.alwaysCallbacks ++ [cb] } hrest hr hj
      simp only [prun, hstep]
      simp only [List.filterMap_cons, regDone, regFail, regAlways]
      refine ⟨by simp [ih2.1], ?_, ?_, ?_, ih2.2.2.2.2.1, ih2.2.2.2.2.2.1, ih2.2.2.2.2.2.2⟩
      · rw [ih2.2.1]
      · rw [ih2.2.2.1]
      · rw [ih2.2.2.2.1]; simp
    | resolveP v => simp [PAction.isReg] at ha
    | rejectP e => simp [PAction.isReg] at ha

/-- Running only registrations from an already-resolved state leaves the
state untouched and fires exactly the immediate deliveries: each `done`
or `always` registration once with the stored value, `fail` never. -/
theorem prun_settled_resolved : ∀ (post : List PAction) (s : PState),
    (∀ a ∈ post, a.isReg = true) → s.resolved = true → s.rejected = false →
    prun s post = (s, post.filterMap (fireResolved s.value)) := by
  intro post
  induction post with
  | nil => intro s h hr hj; simp [prun]
  | cons a rest ih =>
    intro s h hr hj
    have ha : a.isReg = true := h a (List.mem_cons_self a rest)
    have hrest : ∀ b ∈ rest, b.isReg = true := fun b hb => h b (List.mem_cons_of_mem a hb)
    cases a with
    | done cb =>
      have hstep : pstep s (PAction.done cb) = (s, [PEvent.fired cb s.value]) := by
        simp [pstep, hr]
      simp [prun, hstep, ih s hrest hr hj, fireResolved]
    | fail cb =>
      have hstep : pstep s (PAction.fail cb) = (s, []) := by
        simp [pstep, hr, hj]
      simp [prun, hstep, ih s hrest hr hj, fireResolved]
    | always cb =>
      have hstep : pstep s (PAction.always cb) = (s, [PEvent.fired cb s.value]) := by
        simp [pstep, hr]
      simp [prun, hstep, ih s hrest hr hj, fireResolved]
    | resolveP v => simp [PAction.isReg] at ha
    | rejectP e => simp [PAction.isReg] at ha

/-- Running only registrations from an already-rejected state leaves the
state untouched and fires exactly the immediate deliveries: each `fail`
or `always` registration once with the stored error, `done` never. -/
theorem prun_settled_rejected : ∀ (post : List PAction) (s : PState),
    (∀ a ∈ post, a.isReg = true) → s.resolved = false → s.rejected = true →
    prun s post = (s, post.filterMap (fireRejected s.value)) := by
  intro post
  induction post with
  | nil => intro s h hr hj; simp [prun]
  | cons a rest ih =>
    intro s h hr hj
    have ha : a.isReg = true := h a (List.mem_cons_self a rest)
    have hrest : ∀ b ∈ rest, b.isReg = true := fun b hb => h b (List.mem_cons_of_mem a hb)
    cases a with
    | done cb =>
      have hstep : pstep s (PAction.done cb) = (s, []) := by
        simp [pstep, hr, hj]
      simp [prun, hstep, ih s hrest hr hj, fireRejected]
    | fail cb =>
      have hstep : pstep s (PAction.fail cb) = (s, [PEvent.fired cb s.value]) := by
        simp [pstep, hj]
      simp [prun, hstep, ih s hrest hr hj, fireRejected]
    | always cb =>
      have hstep : pstep s (PAction.always cb) = (s, [PEvent.fired cb s.value]) := by
        simp [pstep, hj]
      simp [prun, hstep, ih s hrest hr hj, fireRejected]
    | resolveP v => simp [PAction.isReg] at ha
    | rejectP e => simp [PAction.isReg] at ha

/-- C6: the notification result object starts pending (no observer
fires while only registrations occur), the single settlement of the
wrapped promise moves it to exactly one terminal state and delivers
every queued observer exactly once, in registration order within each
category (`done` then `always` on resolution, `fail` then `always` on
rejection, the opposite category never), and the terminal state is
absorbing: later registrations leave the state unchanged and only their
own immediate deliveries fire — queued observers never fire again. -/
theorem notification_state_machine (regs post : List PAction) (v : Int) (e : ErrVal)
    (hregs : ∀ a ∈ regs, a.isReg = true) (hpost : ∀ a ∈ post, a.isReg = true) :
    (prun PState.init regs).2 = [] ∧
    (prun PState.init regs).1.resolved = false ∧
    (prun PState.init regs).1.rejected = false ∧
    (pstep (prun PState.init regs).1 (PAction.resolveP v)).2 =
      (regs.filterMap regDone).map (fun cb => PEvent.fired cb (PValue.num v)) ++
        (regs.filterMap regAlways).map (fun cb => PEvent.fired cb (PValue.num v)) ∧
    (pstep (prun PState.init regs).1 (PAction.rejectP e)).2 =
      (regs.filterMap regFail).map (fun cb => PEvent.fired cb (PValue.err e)) ++
        (regs.filterMap regAlways).map (fun cb => PEvent.fired cb (PValue.err e)) ∧
    prun (pstep (prun PState.init regs).1 (PAction.resolveP v)).1 post =
      ((pstep (prun PState.init regs).1 (PAction.resolveP v)).1,
        post.filterMap (fireResolved (PValue.num v))) ∧
    prun (pstep (prun PState.init regs).1 (PAction.rejectP e)).1 post =
      ((pstep (prun PState.init regs).1 (PAction.rejectP e)).1,
        post.filterMap (fireRejected (PValue.err e))) := by
  obtain ⟨hev, hdone, hfail, halw, hres, hrej, hval⟩ :=
    prun_pending regs PState.init hregs rfl rfl
  refine ⟨hev, hres, hrej, ?_, ?_, ?_, ?_⟩
  · simp only [pstep]
    rw [hdone, halw]
    simp [PState.init]
  · simp only [pstep]
    rw [hfail, halw]
    simp [PState.init]
  · have h1 : (pstep (prun PState.init regs).1 (PAction.resolveP v)).1.resolved = true := rfl
    have h2 : (pstep (prun PState.init regs).1 (PAction.resolveP v)).1.rejected = false := hrej
    have h3 : (pstep (prun PState.init regs).1 (PAction.resolveP v)).1.value = PValue.num v := rfl
    have hgoal := prun_settled_resolved post _ hpost h1 h2
    rw [h3] at hgoal
    exact hgoal
  · have h1 : (pstep (prun PState.init regs).1 (PAction.rejectP e)).1.rejected = true := rfl
    have h2 : (pstep (prun PState.init regs).1 (PAction.rejectP e)).1.resolved = false := hres
    have h3 : (pstep (prun PState.init regs).1 (PAction.rejectP e)).1.value = PValue.err e := rfl
    have hgoal := prun_settled_rejected post _ hpost h2 h1
    rw [h3] at hgoal
    exact hgoal

/-- Witness for C6 at a concrete registration history. -/
theorem notification_state_machine_witness :
    (prun PState.init [PAction.done 1, PAction.always 2]).2 = [] ∧
    (prun PState.init [PAction.done 1, PAction.always 2]).1.resolved = false ∧
    (prun PState.init [PAction.done 1, PAction.always 2]).1.rejected = false ∧
    (pstep (prun PState.init [PAction.done 1, PAction.always 2]).1 (PAction.resolveP 7)).2 =
      ([PAction.done 1, PAction.always 2].filterMap regDone).map
          (fun cb => PEvent.fired cb (PValue.num 7)) ++
        ([PAction.done 1, PAction.always 2].filterMap regAlways).map
          (fun cb => PEvent.fired cb (PValue.num 7)) ∧
    (pstep (prun PState.init [PAction.done 1, PAction.always 2]).1
        (PAction.rejectP (ErrVal.store 9))).2 =
      ([PAction.done 1, PAction.always 2].filterMap regFail).map
          (fun cb => PEvent.fired cb (PValue.err (ErrVal.store 9))) ++
        ([PAction.done 1, PAction.always 2].filterMap regAlways).map
          (fun cb => PEvent.fired cb (PValue.err (ErrVal.store 9))) ∧
    prun (pstep (prun PState.init [PAction.done 1, PAction.always 2]).1 (PAction.resolveP 7)).1
        [PAction.fail 3] =
      ((pstep (prun PState.init [PAction.done 1, PAction.always 2]).1 (PAction.resolveP 7)).1,
        [PAction.fail 3].filterMap (fireResolved (PValue.num 7))) ∧
    prun (pstep (prun PState.init [PAction.done 1, PAction.always 2]).1
          (PAction.rejectP (ErrVal.store 9))).1 [PAction.fail 3] =
      ((pstep (prun PState.init [PAction.done 1, PAction.always 2]).1
          (PAction.rejectP (ErrVal.store 9))).1,
        [PAction.fail 3].filterMap (fireRejected (PValue.err (ErrVal.store 9)))) :=
  notification_state_machine [PAction.done 1, PAction.always 2] [PAction.fail 3] 7
    (ErrVal.store 9) (by decide) (by decide)

/-- C7: registering a `done` handler on an already-resolved result fires
it synchronously, exactly once, with the resolved value, and leaves the
state unchanged; registering a `fail` handler there is a no-op; and
symmetrically on an already-rejected result. -/
theorem late_registration_delivery (s t : PState) (cb cb2 : Nat) (v : Int) (e : ErrVal)
    (hr : s.resolved = true) (hj : s.rejected = false) (hv : s.value = PValue.num v)
    (h2r : t.resolved = false) (h2j : t.rejected = true) (h2v : t.value = PValue.err e) :
    pstep s (PAction.done cb) = (s, [PEvent.fired cb (PValue.num v)]) ∧
    pstep s (PAction.fail cb2) = (s, []) ∧
    pstep t (PAction.fail cb) = (t, [PEvent.fired cb (PValue.err e)]) ∧
    pstep t (PAction.done cb2) = (t, []) := by
  refine ⟨?_, ?_, ?_, ?_⟩ <;> simp [pstep, hr, hj, h2r, h2j, hv, h2v]

/-- Witness for C7 at concrete settled states. -/
theorem late_registration_delivery_witness :
    pstep { doneCallbacks := [], failCallbacks := [], alwaysCallbacks := [],
            resolved := true, rejected := false, value := PValue.num 5 }
        (PAction.done 0)
      = ({ doneCallbacks := [], failCallbacks := [], alwaysCallbacks := [],
            resolved := true, rejected := false, value := PValue.num 5 },
          [PEvent.fired 0 (PValue.num 5)]) :=
  (late_registration_delivery
    { doneCallbacks := [], failCallbacks := [], alwaysCallbacks := [],
      resolved := true, rejected := false, value := PValue.num 5 }
    { doneCallbacks := [], failCallbacks := [], alwaysCallbacks := [],
      resolved := false, rejected := true, value := PValue.err (ErrVal.store 0) }
    0 1 5 (ErrVal.store 0) rfl rfl rfl rfl rfl rfl).1

end AtomicCounter
